import Mathlib

/-!
Verification of the payment-collection worker (`src/index.js` plus the D1
schema script) against its natural-language specification.

The worker is shallowly embedded:

* The D1 database is a value of type `DbState`: the singleton `counter` row
  with `id = 1` is an `Option Nat` (`none` when the row is absent), and the
  `payments` table is a `List PaymentRecord` in insertion order.
* Each route handler becomes a pure function from its (already JSON-parsed)
  request and the database state to a `Response` and the resulting state.
* The HMAC-SHA-256 primitive (`crypto.subtle`) is an external collaborator;
  it is abstracted as a function argument `hmac : String → String → List Nat`
  mapping (secret, message) to its digest bytes.  The hex encoding of those
  bytes and the compared message `orderId ++ "|" ++ paymentId` are
  transliterated from the source.
* The outbound Razorpay call is abstracted as `Option String`: `none` models
  a non-ok provider response (the code throws), `some id` a JSON order
  handle with field `id`.
* Database statement failures inside the verify-payment transaction are
  injected through a `Faults` record: each sub-step either succeeds or
  rejects with a given error message, mirroring a D1 statement error.
* JavaScript async semantics at the entry point: an `async` handler never
  throws synchronously — errors reject its promise — and `return promise`
  inside `try` adopts the promise without `await`, so the surrounding
  `catch` never observes the rejection.  Handlers therefore return
  `Except String _`, and `fetchMain` propagates an `Except.error` instead
  of converting it to a response.
-/

/-- One row of the `payments` table (the AUTOINCREMENT `id` and the
`created_at` default are not modelled; no claim mentions them). -/
structure PaymentRecord where
  order_number : Nat
  name : String
  mobile : String
  address : String
  amount : Int
  razorpay_order_id : String
  razorpay_payment_id : String
deriving DecidableEq, Repr

/-- The D1 database: the `counter` row with `id = 1` (`none` when absent)
and the `payments` table in insertion order. -/
structure DbState where
  counter : Option Nat
  payments : List PaymentRecord
deriving DecidableEq, Repr

/-- The state produced by the schema script: `INSERT OR IGNORE INTO counter
(id, total_orders) VALUES (1, 0)` and an empty `payments` table. -/
def initialDb : DbState := { counter := some 0, payments := [] }

/-- Response bodies produced by the worker (each `jsonResponse` call site). -/
inductive Body where
  | err (msg : String)
  | nextAmount (n : Nat)
  | created (order_id : String) (amount : Int) (key : String)
  | success (orderNumber : Nat)
  | emptyCors
deriving DecidableEq, Repr

/-- An HTTP response: status code and JSON body (`jsonResponse(data, status)`). -/
structure Response where
  status : Nat
  body : Body
deriving DecidableEq, Repr

/-- `jsonResponse(data, status)` from the source. -/
def jsonResponse (b : Body) (status : Nat) : Response :=
  { status := status, body := b }

/-- `b.toString(16)`: JavaScript base-16 rendering of a byte, minimal length,
lowercase digits (Lean's `Nat.toDigits` likewise uses `'0'`-`'9'`,`'a'`-`'f'`). -/
def jsToString16 (b : Nat) : String :=
  String.mk (Nat.toDigits 16 b)

/-- `.padStart(2, "0")` on a hex chunk. -/
def padStart2 (s : String) : String :=
  if s.length < 2 then "0" ++ s else s

/-- `Array.from(new Uint8Array(sig)).map((b) => b.toString(16).padStart(2, "0")).join("")`. -/
def hexEncode (bs : List Nat) : String :=
  String.join (bs.map (fun b => padStart2 (jsToString16 b)))

/-- `verifySignature(orderId, paymentId, signature, secret)`: HMAC-SHA-256 of
`` `${orderId}|${paymentId}` `` under `secret`, hex-encoded, compared to the
client-supplied signature.  The keyed hash itself is the abstract `hmac`. -/
def verifySignature (hmac : String → String → List Nat)
    (orderId paymentId signature secret : String) : Bool :=
  hexEncode (hmac secret (orderId ++ "|" ++ paymentId)) == signature

/-- Spec-side definition, for comparison with the source's `hexEncode`:
the lowercase hexadecimal encoding of a byte string, two digits per byte,
high nibble first, `10`-`15` rendered `'a'`-`'f'`. -/
def lowerHexDigit (n : Nat) : Char :=
  if n < 10 then Char.ofNat (48 + n) else Char.ofNat (87 + n)

/-- Spec-side lowercase hex encoding of a byte list. -/
def specLowercaseHex (bs : List Nat) : String :=
  String.join (bs.map (fun b => String.mk [lowerHexDigit (b / 16), lowerHexDigit (b % 16)]))

/-- `getNextOrderInfo(db)`: reads the counter row (`row ? row.total_orders : 0`)
and returns `{ totalOrders, nextAmount: (totalOrders + 1) * 10 }`.  Read-only:
it takes the state and returns only values. -/
def getNextOrderInfo (st : DbState) : Nat × Nat :=
  let totalOrders := match st.counter with
    | some t => t
    | none => 0
  (totalOrders, (totalOrders + 1) * 10)

/-- `handleNextAmount(db)`: responds with the `nextAmount` field; the state
is returned unchanged (the handler only reads). -/
def handleNextAmount (st : DbState) : Response × DbState :=
  (jsonResponse (.nextAmount (getNextOrderInfo st).2) 200, st)

/-- A JSON value destructured from a request body, as far as the handlers
inspect one (strings, numbers — modelled as integers — booleans, null,
and absent/undefined). -/
inductive JsVal where
  | vStr (s : String)
  | vNum (n : Int)
  | vBool (b : Bool)
  | vNull
  | vUndef
deriving DecidableEq, Repr

/-- JavaScript truthiness of a `JsVal` (`!x` is its negation): `""`, `0`,
`false`, `null`, `undefined` are falsy. -/
def jsTruthy : JsVal → Bool
  | .vStr s => !(s.isEmpty)
  | .vNum n => n != 0
  | .vBool b => b
  | .vNull => false
  | .vUndef => false

/-- `typeof x === 'number'`. -/
def jsIsNumber : JsVal → Bool
  | .vNum _ => true
  | _ => false

/-- `x < 10` where `x` is known to be a number (the code only reaches this
comparison after the `typeof` guard; other shapes are unreachable there). -/
def jsLtTen : JsVal → Bool
  | .vNum n => n < 10
  | _ => false

/-- A string field of a parsed body: `none` when the key is absent
(`undefined` after destructuring). -/
abbrev OptStr := Option String

/-- Truthiness of an optional string field. -/
def truthyField : OptStr → Bool
  | some s => !(s.isEmpty)
  | none => false

/-- `/^\d{10}$/.test(mobile)`: exactly ten decimal digits.  On an absent
field the regex would coerce `undefined` to `"undefined"` and fail; that
branch is unreachable behind the truthiness guard. -/
def testTenDigits : OptStr → Bool
  | some s => s.length == 10 && s.data.all (fun c => c.isDigit)
  | none => false

/-- Body of a `POST /api/create-order` request after `request.json()`. -/
structure CreateReq where
  name : OptStr
  mobile : OptStr
  address : OptStr
  amount : JsVal
deriving DecidableEq, Repr

/-- `createRazorpayOrder(amount, env)`: one outbound provider call.
`provider = none` models a non-ok response (`throw new Error(...)`);
`some id` models the returned JSON order handle.  The thrown error rejects
the handler's promise, hence `Except`. -/
def createRazorpayOrder (provider : Option String) : Except String String :=
  match provider with
  | none => .error "Razorpay order creation failed"
  | some id => .ok id

/-- `handleCreateOrder(request, env)`: fail-fast validation (required
fields, ten-digit mobile, numeric amount at least 10), then the provider
call, then the `{ order_id, amount, key }` response.  A provider failure
rejects the promise (`Except.error`); no database state is touched. -/
def handleCreateOrder (req : CreateReq) (provider : Option String)
    (keyId : String) : Except String Response :=
  if !(truthyField req.name) || !(truthyField req.mobile) || !(truthyField req.address) then
    .ok (jsonResponse (.err "All fields are required") 400)
  else if !(testTenDigits req.mobile) then
    .ok (jsonResponse (.err "Invalid mobile number") 400)
  else if !(jsTruthy req.amount) || !(jsIsNumber req.amount) || jsLtTen req.amount then
    .ok (jsonResponse (.err "Invalid amount. Minimum amount is ₹10") 400)
  else
    match createRazorpayOrder provider with
    | .error e => .error e
    | .ok orderId =>
        match req.amount with
        | .vNum n => .ok (jsonResponse (.created orderId n keyId) 200)
        | _ => .ok (jsonResponse (.created orderId 0 keyId) 200)

/-- Body of a `POST /api/verify-payment` request after `request.json()`.
The handler applies no validation to these fields, so they are taken in
their stored shapes. -/
structure VerifyReq where
  razorpay_order_id : String
  razorpay_payment_id : String
  razorpay_signature : String
  name : String
  mobile : String
  address : String
  amount : Int
deriving DecidableEq, Repr

/-- Fault injection for the statements inside the verify-payment
transaction: each sub-step either succeeds (`none`) or rejects with the
given D1 error message (`some msg`). -/
structure Faults where
  updateErr : Option String
  selectErr : Option String
  insertErr : Option String
  commitErr : Option String
deriving DecidableEq, Repr

/-- The fault assignment under which every statement succeeds. -/
def noFaults : Faults :=
  { updateErr := none, selectErr := none, insertErr := none, commitErr := none }

/-- The `TypeError` message raised by `counterRow.total_orders` when the
`SELECT` returns no row (counter row absent). -/
def nullRowMsg : String := "Cannot read properties of null (reading 'total_orders')"

/-- The payment record inserted for a committed verification. -/
def mkRecord (orderNumber : Nat) (req : VerifyReq) : PaymentRecord :=
  { order_number := orderNumber
    name := req.name
    mobile := req.mobile
    address := req.address
    amount := req.amount
    razorpay_order_id := req.razorpay_order_id
    razorpay_payment_id := req.razorpay_payment_id }

/-- The `BEGIN TRANSACTION … COMMIT / ROLLBACK` block of
`handleVerifyPayment`: `UPDATE counter SET total_orders = total_orders + 1
WHERE id = 1` (a no-op when the row is absent), read back `total_orders`
(throws `nullRowMsg` on a missing row), `INSERT` the payment record, then
`COMMIT`.  Any rejection inside the `try` triggers `ROLLBACK` — the
returned state is the entry state — and a 500 `"Database error: …"`
response. -/
def runVerifyTx (f : Faults) (req : VerifyReq) (st : DbState) : Response × DbState :=
  match f.updateErr with
  | some m => (jsonResponse (.err ("Database error: " ++ m)) 500, st)
  | none =>
    let st1 : DbState := { st with counter := st.counter.map (· + 1) }
    match f.selectErr with
    | some m => (jsonResponse (.err ("Database error: " ++ m)) 500, st)
    | none =>
      match st1.counter with
      | none => (jsonResponse (.err ("Database error: " ++ nullRowMsg)) 500, st)
      | some orderNumber =>
        match f.insertErr with
        | some m => (jsonResponse (.err ("Database error: " ++ m)) 500, st)
        | none =>
          let st2 : DbState := { st1 with payments := st1.payments ++ [mkRecord orderNumber req] }
          match f.commitErr with
          | some m => (jsonResponse (.err ("Database error: " ++ m)) 500, st)
          | none => (jsonResponse (.success orderNumber) 200, st2)

/-- `handleVerifyPayment(request, env)`: signature check first — a mismatch
answers 400 `"Invalid payment signature"` before any database statement —
then the transactional counter-increment and record-insert. -/
def handleVerifyPayment (hmac : String → String → List Nat) (secret : String)
    (f : Faults) (req : VerifyReq) (st : DbState) : Response × DbState :=
  if verifySignature hmac req.razorpay_order_id req.razorpay_payment_id
      req.razorpay_signature secret then
    runVerifyTx f req st
  else
    (jsonResponse (.err "Invalid payment signature") 400, st)

/-- A verify-payment call paired with the fault behaviour its statements met. -/
abbrev VerifyCall := Faults × VerifyReq

/-- Whether a call passes the signature check and every transaction
sub-step succeeds (from a state whose counter row exists, this is exactly
the condition under which the call commits). -/
def callCommits (hmac : String → String → List Nat) (secret : String)
    (c : VerifyCall) : Bool :=
  verifySignature hmac c.2.razorpay_order_id c.2.razorpay_payment_id
      c.2.razorpay_signature secret
    && c.1.updateErr.isNone && c.1.selectErr.isNone
    && c.1.insertErr.isNone && c.1.commitErr.isNone

/-- Number of calls in a sequence that pass the signature check and commit. -/
def countCommits (hmac : String → String → List Nat) (secret : String)
    (calls : List VerifyCall) : Nat :=
  (calls.filter (callCommits hmac secret)).length

/-- Run a sequence of verify-payment calls, threading the database state. -/
def runCalls (hmac : String → String → List Nat) (secret : String) :
    List VerifyCall → DbState → DbState
  | [], st => st
  | c :: cs, st => runCalls hmac secret cs (handleVerifyPayment hmac secret c.1 c.2 st).2

/-- The exported `fetch(request, env)` entry point.  `urlPath` is `some
pathname` when `new URL(request.url)` succeeds and `none` when it throws
(that throw happens before the `try` block, so it too escapes the handler).
JavaScript semantics of the `try { switch … return handler(...) } catch`
block: each route returns the handler's promise without `await`, so a
rejection of that promise is adopted by `fetch`'s own promise and never
reaches the `catch` clause; nothing inside the `try` throws synchronously.
An `Except.error` therefore propagates out of `fetchMain` — it is the
uncaught exception the runtime sees — instead of becoming a 500 response. -/
def fetchMain (hmac : String → String → List Nat) (secret keyId : String)
    (method : String) (urlPath : Option String)
    (creq : CreateReq) (provider : Option String)
    (vreq : VerifyReq) (f : Faults) (st : DbState) :
    Except String (Response × DbState) :=
  match urlPath with
  | none => .error "Invalid URL"
  | some path =>
    if method == "OPTIONS" then
      .ok ({ status := 200, body := .emptyCors }, st)
    else if path == "/api/next-amount" then
      .ok (handleNextAmount st)
    else if path == "/api/create-order" then
      match handleCreateOrder creq provider keyId with
      | .error e => .error e
      | .ok r => .ok (r, st)
    else if path == "/api/verify-payment" then
      .ok (handleVerifyPayment hmac secret f vreq st)
    else
      .ok (jsonResponse (.err "Not found") 404, st)

set_option maxRecDepth 10000 in
theorem hexByte_eq_spec : ∀ b : Nat, b < 256 →
    padStart2 (jsToString16 b) = String.mk [lowerHexDigit (b / 16), lowerHexDigit (b % 16)] := by
  decide

theorem hexEncode_eq_spec (bs : List Nat) (h : ∀ b ∈ bs, b < 256) :
    hexEncode bs = specLowercaseHex bs := by
  unfold hexEncode specLowercaseHex
  exact congrArg String.join (List.map_congr_left fun b hb => hexByte_eq_spec b (h b hb))

/-- Concrete HMAC collaborator used to instantiate theorems: a function
that answers the two-byte digest `[0x00, 0xff]` on every input. -/
def hmacW : String → String → List Nat := fun _ _ => [0, 255]

/-- A concrete verify-payment request whose signature matches `hmacW`
under secret `"secret"` (`hexEncode [0, 255] = "00ff"`). -/
def reqW : VerifyReq :=
  { razorpay_order_id := "order_1"
    razorpay_payment_id := "pay_1"
    razorpay_signature := "00ff"
    name := "Asha"
    mobile := "9876543210"
    address := "Pune"
    amount := 30 }

/-- A verify-payment request carrying a 3-digit mobile and an amount below
10, with a signature matching `hmacW`: create-order would reject these
fields, verify-payment stores them untouched. -/
def reqBad : VerifyReq :=
  { razorpay_order_id := "order_2"
    razorpay_payment_id := "pay_2"
    razorpay_signature := "00ff"
    name := ""
    mobile := "123"
    address := ""
    amount := 5 }

/-- A concrete create-order request passing every validation check. -/
def creqW : CreateReq :=
  { name := some "Asha"
    mobile := some "9876543210"
    address := some "Pune"
    amount := .vNum 50 }

theorem handleVerifyPayment_state (hmac : String → String → List Nat)
    (secret : String) (f : Faults) (req : VerifyReq) (st : DbState) (n : Nat)
    (hc : st.counter = some n) :
    (handleVerifyPayment hmac secret f req st).2 =
      if callCommits hmac secret (f, req) then
        { counter := some (n + 1), payments := st.payments ++ [mkRecord (n + 1) req] }
      else st := by
  unfold handleVerifyPayment callCommits
  cases hs : verifySignature hmac req.razorpay_order_id req.razorpay_payment_id
      req.razorpay_signature secret
  · simp
  · unfold runVerifyTx
    cases hu : f.updateErr <;> cases hsel : f.selectErr <;>
      cases hi : f.insertErr <;> cases hcm : f.commitErr <;>
      simp [hu, hsel, hi, hcm, hc]

theorem runCalls_inv (hmac : String → String → List Nat) (secret : String)
    (calls : List VerifyCall) :
    ∀ (st : DbState) (n : Nat), st.counter = some n →
      st.payments.map (·.order_number) = List.range' 1 n →
      (runCalls hmac secret calls st).counter = some (n + countCommits hmac secret calls) ∧
      (runCalls hmac secret calls st).payments.map (·.order_number) =
        List.range' 1 (n + countCommits hmac secret calls) := by
  induction calls with
  | nil =>
    intro st n hc hp
    simpa [runCalls, countCommits] using ⟨hc, hp⟩
  | cons c cs ih =>
    intro st n hc hp
    rw [runCalls]
    have hstep := handleVerifyPayment_state hmac secret c.1 c.2 st n hc
    by_cases hcom : callCommits hmac secret c = true
    · rw [hstep, if_pos hcom]
      have hcount : countCommits hmac secret (c :: cs) = countCommits hmac secret cs + 1 := by
        simp [countCommits, List.filter_cons, hcom, Nat.add_comm]
      have h1 : (DbState.mk (some (n + 1)) (st.payments ++ [mkRecord (n + 1) c.2])).payments.map
            (·.order_number) = List.range' 1 (n + 1) := by
        have hr : List.range' 1 (n + 1) = List.range' 1 n ++ [1 + n] := by
          simpa using @List.range'_concat 1 1 n
        simp [hr, hp, mkRecord, Nat.add_comm]
      have hih := ih (DbState.mk (some (n + 1)) (st.payments ++ [mkRecord (n + 1) c.2]))
        (n + 1) rfl h1
      rw [hcount]
      refine ⟨?_, ?_⟩
      · rw [hih.1]; ring_nf
      · rw [hih.2]; ring_nf
    · rw [hstep, if_neg hcom]
      have hcount : countCommits hmac secret (c :: cs) = countCommits hmac secret cs := by
        simp [countCommits, List.filter_cons, hcom]
      rw [hcount]
      exact ih st n hc hp

theorem foldr_max_range' :
    ∀ (n s : Nat), (List.range' s n).foldr Nat.max 0 = if n = 0 then 0 else s + n - 1 := by
  intro n
  induction n with
  | zero => intro s; simp
  | succ m ih =>
    intro s
    rw [List.range'_succ]
    simp only [List.foldr_cons, ih (s + 1)]
    cases m with
    | zero => simp
    | succ k =>
      simp only [Nat.succ_ne_zero, if_false, Nat.max_def]
      split <;> omega

/-- C2: for every verify-payment request whose signature is valid and whose
storage statements all succeed, from a counter at `T` the handler answers
`{ status: "success", orderNumber = T + 1 }`, the counter becomes exactly
`T + 1`, and exactly one payment record is appended whose `order_number` is
`T + 1` and whose remaining fields are exactly the supplied `name`,
`mobile`, `address`, `amount`, `razorpay_order_id`, `razorpay_payment_id`. -/
theorem c2_success_increments_and_records (hmac : String → String → List Nat)
    (secret : String) (req : VerifyReq) (st : DbState) (T : Nat)
    (hctr : st.counter = some T)
    (hsig : verifySignature hmac req.razorpay_order_id req.razorpay_payment_id
      req.razorpay_signature secret = true) :
    handleVerifyPayment hmac secret noFaults req st =
      (jsonResponse (.success (T + 1)) 200,
       DbState.mk (some (T + 1))
         (st.payments ++ [PaymentRecord.mk (T + 1) req.name req.mobile req.address
           req.amount req.razorpay_order_id req.razorpay_payment_id])) := by
  simp [handleVerifyPayment, hsig, runVerifyTx, noFaults, hctr, mkRecord]

/-- C2 witness: from the initialized database, a concrete matching request
commits with order number 1 and the supplied fields. -/
theorem c2_witness :
    handleVerifyPayment hmacW "secret" noFaults reqW initialDb =
      (jsonResponse (.success 1) 200,
       DbState.mk (some 1)
         [PaymentRecord.mk 1 "Asha" "9876543210" "Pune" 30 "order_1" "pay_1"]) :=
  c2_success_increments_and_records hmacW "secret" reqW initialDb 0 rfl (by decide)

/-- C3: the signature check accepts exactly when the client-supplied string
equals the lowercase hexadecimal encoding (spec-side definition
`specLowercaseHex`) of the HMAC-SHA-256 digest of `orderId ++ "|" ++
paymentId` under the server secret; every other signature is rejected.
The digest is abstract; its bytes are byte-valued. -/
theorem c3_signature_iff (hmac : String → String → List Nat)
    (secret orderId paymentId signature : String)
    (hbytes : ∀ b ∈ hmac secret (orderId ++ "|" ++ paymentId), b < 256) :
    verifySignature hmac orderId paymentId signature secret = true ↔
      signature = specLowercaseHex (hmac secret (orderId ++ "|" ++ paymentId)) := by
  unfold verifySignature
  rw [hexEncode_eq_spec _ hbytes]
  constructor
  · intro h
    exact (eq_of_beq h).symm
  · intro h
    exact beq_iff_eq.mpr h.symm

/-- C3 witness: under a collaborator whose digest is `[0x00, 0xff]`, the
signature `"00ff"` is accepted. -/
theorem c3_witness :
    verifySignature hmacW "order_1" "pay_1" "00ff" "secret" = true :=
  (c3_signature_iff hmacW "secret" "order_1" "pay_1" "00ff" (by decide)).mpr (by decide)

/-- C4: a verify-payment request failing signature verification is answered
400 `"Invalid payment signature"` and the database state is returned
untouched for every fault assignment whatsoever — the transaction is
never opened, so no statement behaviour can influence the outcome. -/
theorem c4_invalid_signature (hmac : String → String → List Nat) (secret : String)
    (f : Faults) (req : VerifyReq) (st : DbState)
    (hsig : verifySignature hmac req.razorpay_order_id req.razorpay_payment_id
      req.razorpay_signature secret = false) :
    handleVerifyPayment hmac secret f req st =
      (jsonResponse (.err "Invalid payment signature") 400, st) := by
  simp [handleVerifyPayment, hsig]

/-- C4 witness: a tampered signature is rejected with the counter and
payments unchanged even under a failing `UPDATE` statement (which is
never reached). -/
theorem c4_witness :
    handleVerifyPayment hmacW "secret" (Faults.mk (some "boom") none none none)
      { reqW with razorpay_signature := "deadbeef" } initialDb =
      (jsonResponse (.err "Invalid payment signature") 400, initialDb) :=
  c4_invalid_signature hmacW "secret" (Faults.mk (some "boom") none none none)
    { reqW with razorpay_signature := "deadbeef" } initialDb (by decide)

/-- C9: when the counter row with `id = 1` is absent, `getNextOrderInfo`
does not fail: it treats `total_orders` as 0 and quotes 10. -/
theorem c9_missing_counter_row (st : DbState) (h : st.counter = none) :
    getNextOrderInfo st = (0, 10) ∧
    handleNextAmount st = (jsonResponse (.nextAmount 10) 200, st) := by
  constructor
  · simp [getNextOrderInfo, h]
  · simp [handleNextAmount, getNextOrderInfo, h]

/-- C9 witness: the empty database with no counter row quotes 10. -/
theorem c9_witness :
    getNextOrderInfo (DbState.mk none []) = (0, 10) ∧
    handleNextAmount (DbState.mk none []) =
      (jsonResponse (.nextAmount 10) 200, DbState.mk none []) :=
  c9_missing_counter_row (DbState.mk none []) rfl

/-- C10: verify-payment applies no validation to `name`, `mobile`,
`address` or `amount`: any request with a valid signature and successful
storage gets a record with exactly the supplied field values — the
hypothesis constrains neither the mobile shape nor the amount. -/
theorem c10_no_validation_on_verify (hmac : String → String → List Nat)
    (secret : String) (req : VerifyReq) (st : DbState) (T : Nat)
    (hctr : st.counter = some T)
    (hsig : verifySignature hmac req.razorpay_order_id req.razorpay_payment_id
      req.razorpay_signature secret = true) :
    (handleVerifyPayment hmac secret noFaults req st).1 =
      jsonResponse (.success (T + 1)) 200 ∧
    (handleVerifyPayment hmac secret noFaults req st).2.payments =
      st.payments ++ [PaymentRecord.mk (T + 1) req.name req.mobile req.address
        req.amount req.razorpay_order_id req.razorpay_payment_id] := by
  constructor <;> simp [handleVerifyPayment, hsig, runVerifyTx, noFaults, hctr, mkRecord]

/-- C10 witness: a request with a 3-digit mobile, empty name and address,
and amount 5 — all of which create-order would reject — is stored
verbatim. -/
theorem c10_witness :
    (handleVerifyPayment hmacW "secret" noFaults reqBad initialDb).1 =
      jsonResponse (.success 1) 200 ∧
    (handleVerifyPayment hmacW "secret" noFaults reqBad initialDb).2.payments =
      [PaymentRecord.mk 1 "" "123" "" 5 "order_2" "pay_2"] :=
  c10_no_validation_on_verify hmacW "secret" reqBad initialDb 0 rfl (by decide)

/-- C1: starting from the initialized database (counter 0, no payments),
after any sequence of verify-payment calls the counter equals the number
`M` of calls that passed signature verification and committed, the stored
`order_number` values are the list `1, 2, …, M` in insertion order, their
count is `M`, the set of values is exactly `{1, …, M}`, and their maximum
(0 when no record exists) is `M`.  Since the sequence of calls is
arbitrary, this holds at every point of every run. -/
theorem c1_contiguous_numbering (hmac : String → String → List Nat) (secret : String)
    (calls : List VerifyCall) :
    (runCalls hmac secret calls initialDb).counter = some (countCommits hmac secret calls) ∧
    (runCalls hmac secret calls initialDb).payments.map (·.order_number) =
      List.range' 1 (countCommits hmac secret calls) ∧
    (runCalls hmac secret calls initialDb).payments.length = countCommits hmac secret calls ∧
    (∀ k : Nat, k ∈ (runCalls hmac secret calls initialDb).payments.map (·.order_number) ↔
      1 ≤ k ∧ k ≤ countCommits hmac secret calls) ∧
    ((runCalls hmac secret calls initialDb).payments.map (·.order_number)).foldr Nat.max 0 =
      countCommits hmac secret calls := by
  have h := runCalls_inv hmac secret calls initialDb 0 rfl (by simp [initialDb])
  simp only [Nat.zero_add] at h
  refine ⟨h.1, h.2, ?_, ?_, ?_⟩
  · have hlen := congrArg List.length h.2
    simpa using hlen
  · intro k
    rw [h.2, List.mem_range'_1]
    omega
  · rw [h.2, foldr_max_range']
    split <;> omega

/-- C5: if the signature verifies but any sub-step of the transaction
fails — the counter increment, the counter read-back (including the
missing-row `TypeError`), the record insert, or the commit — the whole
transaction is rolled back: the returned state is exactly the entry state
(counter at its pre-increment value, no record with the would-be order
number), and the response is a 500 whose message is `"Database error: "`
followed by the statement error. -/
theorem c5_rollback_on_storage_failure (hmac : String → String → List Nat)
    (secret : String) (f : Faults) (req : VerifyReq) (st : DbState)
    (hsig : verifySignature hmac req.razorpay_order_id req.razorpay_payment_id
      req.razorpay_signature secret = true)
    (hfail : f.updateErr.isSome ∨ f.selectErr.isSome ∨ f.insertErr.isSome ∨
      f.commitErr.isSome ∨ st.counter = none) :
    ∃ msg : String,
      handleVerifyPayment hmac secret f req st =
        (jsonResponse (.err ("Database error: " ++ msg)) 500, st) := by
  cases hu : f.updateErr with
  | some m => exact ⟨m, by simp [handleVerifyPayment, hsig, runVerifyTx, hu]⟩
  | none =>
  cases hs2 : f.selectErr with
  | some m => exact ⟨m, by simp [handleVerifyPayment, hsig, runVerifyTx, hu, hs2]⟩
  | none =>
  cases hc : st.counter with
  | none => exact ⟨nullRowMsg, by simp [handleVerifyPayment, hsig, runVerifyTx, hu, hs2, hc]⟩
  | some n =>
  cases hi : f.insertErr with
  | some m => exact ⟨m, by simp [handleVerifyPayment, hsig, runVerifyTx, hu, hs2, hc, hi]⟩
  | none =>
  cases hcm : f.commitErr with
  | some m => exact ⟨m, by simp [handleVerifyPayment, hsig, runVerifyTx, hu, hs2, hc, hi, hcm]⟩
  | none =>
    rcases hfail with h | h | h | h | h <;> simp_all

/-- C5 witness: a failing `INSERT` after a valid signature leaves the
counter at 5 and the payments table empty, with a 500 storage error. -/
theorem c5_witness :
    ∃ msg : String,
      handleVerifyPayment hmacW "secret" (Faults.mk none none (some "SQLITE_CONSTRAINT") none)
        reqW (DbState.mk (some 5) []) =
        (jsonResponse (.err ("Database error: " ++ msg)) 500, DbState.mk (some 5) []) :=
  c5_rollback_on_storage_failure hmacW "secret"
    (Faults.mk none none (some "SQLITE_CONSTRAINT") none) reqW (DbState.mk (some 5) [])
    (by decide) (Or.inr (Or.inr (Or.inl rfl)))

/-- C6: with the counter at `T`, `getNextOrderInfo` returns
`(T + 1) * 10` and `handleNextAmount` leaves the state unchanged
(read-only); consequently, after `N` verifications that all commit,
starting from the initialized database, the next quote is
`(N + 1) * 10`. -/
theorem c6_quote_ladder (hmac : String → String → List Nat) (secret : String)
    (st : DbState) (T : Nat) (calls : List VerifyCall)
    (hctr : st.counter = some T)
    (hall : ∀ c ∈ calls, callCommits hmac secret c = true) :
    getNextOrderInfo st = (T, (T + 1) * 10) ∧
    handleNextAmount st = (jsonResponse (.nextAmount ((T + 1) * 10)) 200, st) ∧
    (getNextOrderInfo (runCalls hmac secret calls initialDb)).2 =
      (calls.length + 1) * 10 := by
  refine ⟨?_, ?_, ?_⟩
  · simp [getNextOrderInfo, hctr]
  · simp [handleNextAmount, getNextOrderInfo, hctr, jsonResponse]
  · have h := runCalls_inv hmac secret calls initialDb 0 rfl (by simp [initialDb])
    have hM : countCommits hmac secret calls = calls.length := by
      unfold countCommits
      rw [List.filter_eq_self.mpr hall]
    simp only [Nat.zero_add, hM] at h
    simp [getNextOrderInfo, h.1]

/-- C6 witness: at counter 7 the quote is 80; after two committed
verifications from the initialized database the quote is 30. -/
theorem c6_witness :
    getNextOrderInfo (DbState.mk (some 7) []) = (7, 80) ∧
    handleNextAmount (DbState.mk (some 7) []) =
      (jsonResponse (.nextAmount 80) 200, DbState.mk (some 7) []) ∧
    (getNextOrderInfo (runCalls hmacW "secret" [(noFaults, reqW), (noFaults, reqBad)] initialDb)).2 =
      30 :=
  c6_quote_ladder hmacW "secret" (DbState.mk (some 7) []) 7
    [(noFaults, reqW), (noFaults, reqBad)] rfl (by decide)

/-- C7: create-order validation is fail-fast in source order — missing or
empty `name`/`mobile`/`address` answers 400 `"All fields are required"`;
otherwise a mobile that is not exactly ten decimal digits answers 400
`"Invalid mobile number"`; otherwise an amount that is not a number at
least 10 answers 400 with the amount message — and on any validation
failure the result is independent of the provider, i.e. no outbound call
is consulted (the handler touches no database state at all). -/
theorem c7_create_order_validation (req : CreateReq) (p p' : Option String) (keyId : String) :
    ((truthyField req.name && truthyField req.mobile && truthyField req.address) = false →
      handleCreateOrder req p keyId = .ok (jsonResponse (.err "All fields are required") 400)) ∧
    ((truthyField req.name && truthyField req.mobile && truthyField req.address) = true →
      testTenDigits req.mobile = false →
      handleCreateOrder req p keyId = .ok (jsonResponse (.err "Invalid mobile number") 400)) ∧
    ((truthyField req.name && truthyField req.mobile && truthyField req.address) = true →
      testTenDigits req.mobile = true →
      (∀ n : Int, req.amount = JsVal.vNum n → n < 10) →
      handleCreateOrder req p keyId =
        .ok (jsonResponse (.err "Invalid amount. Minimum amount is ₹10") 400)) ∧
    (((truthyField req.name && truthyField req.mobile && truthyField req.address) = false ∨
      testTenDigits req.mobile = false ∨
      (∀ n : Int, req.amount = JsVal.vNum n → n < 10)) →
      handleCreateOrder req p keyId = handleCreateOrder req p' keyId) := by
  have hfields : ∀ q : Option String,
      (truthyField req.name && truthyField req.mobile && truthyField req.address) = false →
      handleCreateOrder req q keyId = .ok (jsonResponse (.err "All fields are required") 400) := by
    intro q h
    unfold handleCreateOrder
    cases hn : truthyField req.name <;> cases hm : truthyField req.mobile <;>
      cases ha : truthyField req.address <;> simp_all
  have hmobile : ∀ q : Option String,
      (truthyField req.name && truthyField req.mobile && truthyField req.address) = true →
      testTenDigits req.mobile = false →
      handleCreateOrder req q keyId = .ok (jsonResponse (.err "Invalid mobile number") 400) := by
    intro q h1 h2
    unfold handleCreateOrder
    cases hn : truthyField req.name <;> cases hm : truthyField req.mobile <;>
      cases ha : truthyField req.address <;> simp_all
  have hamount : ∀ q : Option String,
      (truthyField req.name && truthyField req.mobile && truthyField req.address) = true →
      testTenDigits req.mobile = true →
      (∀ n : Int, req.amount = JsVal.vNum n → n < 10) →
      handleCreateOrder req q keyId =
        .ok (jsonResponse (.err "Invalid amount. Minimum amount is ₹10") 400) := by
    intro q h1 h2 h3
    unfold handleCreateOrder
    cases hamt : req.amount with
    | vNum n =>
      have hn10 : n < 10 := h3 n hamt
      cases hn : truthyField req.name <;> cases hm : truthyField req.mobile <;>
        cases ha : truthyField req.address <;>
        simp_all [jsTruthy, jsIsNumber, jsLtTen]
    | vStr s =>
      cases hn : truthyField req.name <;> cases hm : truthyField req.mobile <;>
        cases ha : truthyField req.address <;>
        simp_all [jsTruthy, jsIsNumber, jsLtTen]
    | vBool b =>
      cases hn : truthyField req.name <;> cases hm : truthyField req.mobile <;>
        cases ha : truthyField req.address <;>
        simp_all [jsTruthy, jsIsNumber, jsLtTen]
    | vNull =>
      cases hn : truthyField req.name <;> cases hm : truthyField req.mobile <;>
        cases ha : truthyField req.address <;>
        simp_all [jsTruthy, jsIsNumber, jsLtTen]
    | vUndef =>
      cases hn : truthyField req.name <;> cases hm : truthyField req.mobile <;>
        cases ha : truthyField req.address <;>
        simp_all [jsTruthy, jsIsNumber, jsLtTen]
  refine ⟨hfields p, hmobile p, hamount p, ?_⟩
  intro h
  rcases h with h | h | h
  · rw [hfields p h, hfields p' h]
  · cases hf : (truthyField req.name && truthyField req.mobile && truthyField req.address) with
    | false => rw [hfields p hf, hfields p' hf]
    | true => rw [hmobile p hf h, hmobile p' hf h]
  · cases hf : (truthyField req.name && truthyField req.mobile && truthyField req.address) with
    | false => rw [hfields p hf, hfields p' hf]
    | true =>
      cases hm : testTenDigits req.mobile with
      | false => rw [hmobile p hf hm, hmobile p' hf hm]
      | true => rw [hamount p hf hm h, hamount p' hf hm h]

/-- C7 witness: the spec scenario — mobile `"12345"` (five digits) — is
rejected with `"Invalid mobile number"`, identically whether the provider
would succeed or fail. -/
theorem c7_witness :
    handleCreateOrder (CreateReq.mk (some "Ravi") (some "12345") (some "Pune") (.vNum 50))
        (some "ord_x") "key" =
      .ok (jsonResponse (.err "Invalid mobile number") 400) ∧
    handleCreateOrder (CreateReq.mk (some "Ravi") (some "12345") (some "Pune") (.vNum 50))
        (some "ord_x") "key" =
      handleCreateOrder (CreateReq.mk (some "Ravi") (some "12345") (some "Pune") (.vNum 50))
        none "key" :=
  ⟨(c7_create_order_validation
      (CreateReq.mk (some "Ravi") (some "12345") (some "Pune") (.vNum 50))
      (some "ord_x") none "key").2.1 (by decide) (by decide),
   (c7_create_order_validation
      (CreateReq.mk (some "Ravi") (some "12345") (some "Pune") (.vNum 50))
      (some "ord_x") none "key").2.2.2 (Or.inr (Or.inl (by decide)))⟩

/-- C8, failing input: a create-order request passing validation whose
outbound Razorpay call fails.  The route handlers are returned from
inside `try` without `await`, so the rejected promise is adopted by
`fetch`'s own promise and the `catch` clause never runs: the error
escapes the request boundary as an uncaught exception instead of
becoming a structured JSON error response. -/
theorem c8_provider_error_escapes_fetch :
    fetchMain hmacW "secret" "key" "POST" (some "/api/create-order") creqW none reqW
        noFaults initialDb =
      .error "Razorpay order creation failed" := by
  rfl
